import Mathlib

/-!
Verification development for the schemalex MySQL DDL parser (`parser.go`).

The parser is embedded shallowly over the token-stream interface: the lexer
is an external collaborator (spec §1, out of scope), so `Parse` here takes
the token list that the Go `Lex` goroutine would deliver over the channel.
The `parseCtx` lookahead buffer (3 token slots plus a cursor) is modelled
faithfully, including its unchecked capacity.  Go's `context` cancellation
is the `done` flag; `cancel` models the external cancellation event.

Loops in the Go code are embedded as fuel-indexed recursion; the result
type `Res` distinguishes success, the "ignorable" error class used for
`CREATE DATABASE`, fatal parse errors, Go panics, and fuel exhaustion
(which models non-termination of the Go code).
-/

set_option maxRecDepth 8192
set_option maxHeartbeats 2000000

namespace Schemalex

/-- Token kinds, mirroring the lexer vocabulary consumed by `parser.go`.
`SPARTIAL_KW` is the source's (misspelled) SPATIAL keyword token and
`PARTIAL_KW` the reference-match PARTIAL keyword; both carry a `_KW`
suffix to keep clear of Lean keywords. -/
inductive TokenType where
  | CREATE | DATABASE | TABLE | IF | NOT | EXISTS | TEMPORARY
  | LPAREN | RPAREN | COMMA | SEMICOLON | EQUAL | EOF | SPACE | COMMENT_IDENT
  | IDENT | BACKTICK_IDENT | SINGLE_QUOTE_IDENT | DOUBLE_QUOTE_IDENT | NUMBER
  | DROP | SET | USE
  | CONSTRAINT | PRIMARY | UNIQUE | FOREIGN | INDEX | KEY | FULLTEXT
  | SPARTIAL_KW | CHECK
  | BIT | TINYINT | SMALLINT | MEDIUMINT | INT | INTEGER | BIGINT
  | REAL | DOUBLE | FLOAT | DECIMAL | NUMERIC
  | DATE | TIME | TIMESTAMP | DATETIME | YEAR
  | CHAR | VARCHAR | BINARY | VARBINARY
  | TINYBLOB | BLOB | MEDIUMBLOB | LONGBLOB
  | TINYTEXT | TEXT | MEDIUMTEXT | LONGTEXT
  | UNSIGNED | ZEROFILL | NULL | DEFAULT | AUTO_INCREMENT | COMMENT
  | ENGINE | AVG_ROW_LENGTH | CHARACTER | COLLATE | CHECKSUM | CONNECTION
  | DATA | DIRECTORY | DELAY_KEY_WRITE | INSERT_METHOD | KEY_BLOCK_SIZE
  | MAX_ROWS | MIN_ROWS | PACK_KEYS | PASSWORD | ROW_FORMAT
  | DYNAMIC | FIXED | COMPRESSED | REDUNDANT | COMPACT
  | STATS_AUTO_RECALC | STATS_PERSISTENT | STATS_SAMPLE_PAGES
  | TABLESPACE | UNION
  | REFERENCES | MATCH | FULL | PARTIAL_KW | SIMPLE
  | ON | DELETE | UPDATE | RESTRICT | CASCADE | NO | ACTION
  | USING | BTREE | HASH | CURRENT_TIMESTAMP
  deriving DecidableEq, Repr

/-- A lexer token: kind plus literal text (`Type`/`Value` in Go; `Type`
is a Lean sort, hence `typ`). -/
structure Token where
  typ : TokenType
  value : String
  deriving DecidableEq, Repr

/-- `var eofToken = Token{Type: EOF}` -/
def eofToken : Token := ⟨TokenType.EOF, ""⟩

/-- The `parseCtx` cursor state.  `source` is the suffix of the lexer's
token stream not yet received from the channel; `done` is the
`context.Done` cancellation flag; `peekCount` and the three `pt` fields
are the `peekCount` cursor and the `peekTokens [3]*Token` array.  Go
leaves the array slots nil-initialised; `eofToken` stands in for the nil
pointer (reachable parser flows never read an unwritten slot). -/
structure PState where
  done : Bool
  source : List Token
  peekCount : Int
  pt0 : Token
  pt1 : Token
  pt2 : Token
  deriving DecidableEq, Repr

/-- `newParseCtx`: peekCount starts at -1. -/
def newParseCtx (src : List Token) : PState :=
  ⟨false, src, -1, eofToken, eofToken, eofToken⟩

/-- Read `peekTokens[i]` (out-of-range reads, unreachable in the parser,
yield the nil stand-in). -/
def getSlot (s : PState) (i : Int) : Token :=
  if i = 0 then s.pt0 else if i = 1 then s.pt1 else if i = 2 then s.pt2
  else eofToken

/-- Write `peekTokens[i] = t`. -/
def setSlot (s : PState) (i : Int) (t : Token) : PState :=
  if i = 0 then { s with pt0 := t }
  else if i = 1 then { s with pt1 := t }
  else if i = 2 then { s with pt2 := t }
  else s

/-- `parseCtx.peek`: if the cursor is below the cached range, receive one
token from the channel (returning the synthetic `eofToken` on
cancellation or a closed channel), cache it, and return it; otherwise
return the token under the cursor. -/
def peek (s : PState) : Token × PState :=
  if s.peekCount < 0 then
    if s.done then (eofToken, s)
    else
      match s.source with
      | [] => (eofToken, s)
      | t :: rest =>
        let s' := setSlot { s with source := rest, peekCount := s.peekCount + 1 }
          (s.peekCount + 1) t
        (getSlot s' s'.peekCount, s')
  else (getSlot s s.peekCount, s)

/-- `parseCtx.advance`: decrement the cursor when it is in range. -/
def advance (s : PState) : PState :=
  if 0 ≤ s.peekCount then { s with peekCount := s.peekCount - 1 } else s

/-- `parseCtx.rewind`: increment the cursor when below 2. -/
def rewind (s : PState) : PState :=
  if s.peekCount < 2 then { s with peekCount := s.peekCount + 1 } else s

/-- `parseCtx.next`: peek then advance, returning the peeked token. -/
def next (s : PState) : Token × PState :=
  let (t, s') := peek s
  (t, advance s')

/-- The external cancellation event (`cancel()` on the Go context). -/
def cancel (s : PState) : PState := { s with done := true }

/-- `parseCtx.skipWhiteSpaces` as fuel-indexed recursion; `none` models
non-termination. -/
def skipWhiteSpaces : Nat → PState → Option PState
  | 0, _ => none
  | fuel + 1, s =>
    let (t, s') := peek s
    match t.typ with
    | TokenType.SPACE => skipWhiteSpaces fuel (advance s')
    | TokenType.COMMENT_IDENT => skipWhiteSpaces fuel (advance s')
    | _ => some s'

/-- `Parser.eol`: skip whitespace, then consume-and-accept EOF or `;`,
refusing (without consuming) anything else. -/
def eol (fuel : Nat) (s : PState) : Option (Bool × PState) :=
  match skipWhiteSpaces fuel s with
  | none => none
  | some s1 =>
    let (t, s2) := peek s1
    match t.typ with
    | TokenType.EOF => some (true, advance s2)
    | TokenType.SEMICOLON => some (true, advance s2)
    | _ => some (false, s2)

/-! ### The statement AST

Modelled from the spec: the `statement` package (AST node types and their
setters) is not among the given source files; the structures below follow
the spec's §3 data model and the setter calls made by `parser.go`
(`SetType`, `AddColumn`, `AddOption`, ...), with setters embedded as
record updates and the `Add*` methods as list appends. -/

/-- Modelled from the spec: `statement.ColumnType*`. -/
inductive ColumnType where
  | bit | tinyInt | smallInt | mediumInt | int | integer | bigInt
  | real | double | float | decimal | numeric
  | date | time | timestamp | dateTime | year
  | char | varChar | binary | varBinary
  | tinyBlob | blob | mediumBlob | longBlob
  | tinyText | text | mediumText | longText
  deriving DecidableEq, Repr

/-- Modelled from the spec: `null_state: enumerated {Unknown, Null, NotNull}`. -/
inductive NullState where
  | unknown | null | notNull
  deriving DecidableEq, Repr

/-- Modelled from the spec: `Length — {value, decimal: optional}`. -/
structure Length where
  value : String
  decimal : Option String
  deriving DecidableEq, Repr

/-- `statement.NewLength(v)` (decimal unset). -/
def newLength (v : String) : Length := ⟨v, none⟩

/-- Modelled from the spec: the `Column` record of §3. -/
structure TableColumn where
  name : String
  typ : ColumnType
  length : Option Length
  unsigned : Bool
  zeroFill : Bool
  binary : Bool
  nullState : NullState
  defaultVal : Option String
  autoIncrement : Bool
  isKey : Bool
  isUnique : Bool
  isPrimary : Bool
  comment : Option String
  deriving DecidableEq, Repr

/-- `statement.NewTableColumn(name)`; the column type is only observable
after `SetType`, so the initial value (`bit`, the first enumerand, i.e.
the Go zero value) is immaterial. -/
def newTableColumn (n : String) : TableColumn :=
  ⟨n, ColumnType.bit, none, false, false, false, NullState.unknown,
   none, false, false, false, false, none⟩

/-- Modelled from the spec: `Index.kind` enumerands. -/
inductive IndexKind where
  | primaryKey | unique | normal | fullText | spatial | foreignKey
  deriving DecidableEq, Repr

/-- Modelled from the spec: `index_type: enumerated {None, BTree, Hash}`. -/
inductive IndexType where
  | noneType | btree | hash
  deriving DecidableEq, Repr

/-- Modelled from the spec: `match: optional enumerated {Full, Partial, Simple}`
(`part` is the Partial enumerand). -/
inductive ReferenceMatch where
  | full | part | simple
  deriving DecidableEq, Repr

/-- Modelled from the spec: `ReferenceOption ∈ {Restrict, Cascade, SetNull, NoAction}`. -/
inductive ReferenceOption where
  | restrict | cascade | setNull | noAction
  deriving DecidableEq, Repr

/-- Modelled from the spec: the foreign-key `Reference` record of §3. -/
structure Reference where
  tableName : String
  columns : List String
  matchOpt : Option ReferenceMatch
  onDelete : Option ReferenceOption
  onUpdate : Option ReferenceOption
  deriving DecidableEq, Repr

/-- `statement.NewReference()`. -/
def newReference : Reference := ⟨"", [], none, none, none⟩

/-- Modelled from the spec: the `Index` record of §3. -/
structure Index where
  kind : IndexKind
  symbol : Option String
  name : Option String
  indexType : IndexType
  columns : List String
  reference : Option Reference
  deriving DecidableEq, Repr

/-- `statement.NewIndex(kind)`. -/
def newIndex (k : IndexKind) : Index := ⟨k, none, none, IndexType.noneType, [], none⟩

/-- Modelled from the spec: a `(key, value)` table option pair. -/
structure TableOption where
  key : String
  value : String
  deriving DecidableEq, Repr

/-- Modelled from the spec: the `Table` record of §3. -/
structure Table where
  name : String
  temporary : Bool
  ifNotExists : Bool
  columns : List TableColumn
  indexes : List Index
  options : List TableOption
  deriving DecidableEq, Repr

/-- `statement.NewTable(name)`. -/
def newTable (n : String) : Table := ⟨n, false, false, [], [], []⟩

/-- Modelled from the spec: `Database — {name, if_not_exists}`. -/
structure Database where
  name : String
  ifNotExists : Bool
  deriving DecidableEq, Repr

/-- A top-level AST node (`Stmt` in Go: `statement.Table` or
`statement.Database`). -/
inductive Stmt where
  | table : Table → Stmt
  | database : Database → Stmt
  deriving DecidableEq, Repr

/-! ### Results and errors -/

/-- Outcome of a parsing function.  `ok` is success; `ign` is the
`errors.Ignorable` class (carries the context because Go mutates it in
place before returning); `err` is a fatal parse error (message text kept
close to the Go format strings); `crash` models a Go panic; `nofuel`
models non-termination of the Go code. -/
inductive Res (α : Type) where
  | ok : α → Res α
  | ign : PState → Res α
  | err : String → Res α
  | crash : String → Res α
  | nofuel : Res α
  deriving DecidableEq, Repr

/-- Error/ignorable propagation, matching Go's `if err != nil return`. -/
def Res.bind {α β : Type} : Res α → (α → Res β) → Res β
  | Res.ok a, f => f a
  | Res.ign s, _ => Res.ign s
  | Res.err e, _ => Res.err e
  | Res.crash e, _ => Res.crash e
  | Res.nofuel, _ => Res.nofuel

instance : Monad Res where
  pure := Res.ok
  bind := Res.bind

/-- Lift `skipWhiteSpaces` into `Res`. -/
def skipWSR (fuel : Nat) (s : PState) : Res PState :=
  match skipWhiteSpaces fuel s with
  | some s' => Res.ok s'
  | none => Res.nofuel

/-- Lift `eol` into `Res`. -/
def eolR (fuel : Nat) (s : PState) : Res (Bool × PState) :=
  match eol fuel s with
  | some r => Res.ok r
  | none => Res.nofuel

/-! ### Column-option rank flags

Modelled from the spec: the `colopt*` bit-flag constants are declared in a
repository file that is not among the given sources (only their use sites
in `parser.go` are).  Spec §4.5 fixes their relative order — size,
decimal size, optional decimal size, UNSIGNED, ZEROFILL, BINARY,
NULL-state, DEFAULT, AUTO_INCREMENT, KEY-family, COMMENT — each a bit
flag, and the per-type capability sets (integer: unsigned/zero-fill/digit
width; decimal: precision/scale plus unsigned/zero-fill; temporal and
binary: a single size; character: size and BINARY; BLOB/TEXT: none). -/

/-- Modelled from the spec: rank of a parenthesized size `(N)`. -/
def coloptSize : Nat := 1
/-- Modelled from the spec: rank of a precision/scale pair `(M,D)`. -/
def coloptDecimalSize : Nat := 2
/-- Modelled from the spec: rank of an optional-scale pair `(M[,D])`. -/
def coloptDecimalOptionalSize : Nat := 4
/-- Modelled from the spec: rank of `UNSIGNED`. -/
def coloptUnsigned : Nat := 8
/-- Modelled from the spec: rank of `ZEROFILL`. -/
def coloptZerofill : Nat := 16
/-- Modelled from the spec: rank of the `BINARY` attribute. -/
def coloptBinary : Nat := 32
/-- Modelled from the spec: rank of `NULL` / `NOT NULL`. -/
def coloptNull : Nat := 64
/-- Modelled from the spec: rank of `DEFAULT`. -/
def coloptDefault : Nat := 128
/-- Modelled from the spec: rank of `AUTO_INCREMENT`. -/
def coloptAutoIncrement : Nat := 256
/-- Modelled from the spec: shared rank of `UNIQUE`/`KEY`/`PRIMARY KEY`. -/
def coloptKey : Nat := 512
/-- Modelled from the spec: rank of `COMMENT`. -/
def coloptComment : Nat := 1024

/-- Modelled from the spec: capability set of BLOB/TEXT-like types. -/
def coloptFlagNone : Nat := 0
/-- Modelled from the spec: capability set of integer types. -/
def coloptFlagDigit : Nat := coloptSize ||| coloptUnsigned ||| coloptZerofill
/-- Modelled from the spec: capability set of REAL/DOUBLE/FLOAT. -/
def coloptFlagDecimal : Nat := coloptDecimalSize ||| coloptUnsigned ||| coloptZerofill
/-- Modelled from the spec: capability set of DECIMAL/NUMERIC. -/
def coloptFlagDecimalOptional : Nat :=
  coloptDecimalOptionalSize ||| coloptUnsigned ||| coloptZerofill
/-- Modelled from the spec: capability set of TIME/TIMESTAMP/DATETIME. -/
def coloptFlagTime : Nat := coloptSize
/-- Modelled from the spec: capability set of CHAR/VARCHAR/TEXT family. -/
def coloptFlagChar : Nat := coloptSize ||| coloptBinary
/-- Modelled from the spec: capability set of BINARY/VARBINARY. -/
def coloptFlagBinary : Nat := coloptSize

/-- The `check` closure inside `parseColumnOption`: an option of rank
`rank` is accepted iff `rank` is at least the running rank `pos` and is
contained in the permitted flag set `f`; on success the running rank
becomes `rank`. -/
def coloptCheck (f pos rank : Nat) : Bool × Nat :=
  if pos > rank then (false, pos)
  else if f ||| rank ≠ f then (false, pos)
  else (true, rank)

/-! ### Grammar functions -/

/-- `Parser.parseIdents`: consume an exact sequence of token kinds
(whitespace-separated), returning their literal texts. -/
def parseIdents (fuel : Nat) : List TokenType → PState → Res (List String × PState)
  | [], s => Res.ok ([], s)
  | ty :: rest, s => do
    let s ← skipWSR fuel s
    let (t, s) := next s
    if t.typ = ty then do
      let (strs, s) ← parseIdents fuel rest s
      pure (t.value :: strs, s)
    else Res.err "expected ident sequence"

/-- `Parser.parseColumnIndexName`: optionally consume an identifier as
the index name. -/
def parseColumnIndexName (fuel : Nat) (index : Index) (s : PState) :
    Res (Index × PState) := do
  let s ← skipWSR fuel s
  let (t, s) := peek s
  match t.typ with
  | TokenType.BACKTICK_IDENT => Res.ok ({ index with name := some t.value }, advance s)
  | TokenType.IDENT => Res.ok ({ index with name := some t.value }, advance s)
  | _ => Res.ok (index, s)

/-- `Parser.parseColumnIndexTypeUsing`: `USING BTREE|HASH`. -/
def parseColumnIndexTypeUsing (fuel : Nat) (index : Index) (s : PState) :
    Res (Index × PState) := do
  let (t, s) := next s
  if t.typ ≠ TokenType.USING then Res.err "expected USING"
  else do
    let s ← skipWSR fuel s
    let (t, s) := next s
    match t.typ with
    | TokenType.BTREE => Res.ok ({ index with indexType := IndexType.btree }, s)
    | TokenType.HASH => Res.ok ({ index with indexType := IndexType.hash }, s)
    | _ => Res.err "should BTREE or HASH"

/-- `Parser.parseColumnIndexType`: optional `USING` clause, else type None. -/
def parseColumnIndexType (fuel : Nat) (index : Index) (s : PState) :
    Res (Index × PState) := do
  let s ← skipWSR fuel s
  let (t, s) := peek s
  if t.typ = TokenType.USING then parseColumnIndexTypeUsing fuel index s
  else Res.ok ({ index with indexType := IndexType.noneType }, s)

/-- The `OUTER` loop of `parseColumnIndexColName`: comma-separated
identifiers up to `)`. -/
def colNameLoop (fuel : Nat) : Nat → List String → PState → Res (List String × PState)
  | 0, _, _ => Res.nofuel
  | n + 1, cols, s => do
    let s ← skipWSR fuel s
    let (t, s) := next s
    if t.typ = TokenType.IDENT ∨ t.typ = TokenType.BACKTICK_IDENT then do
      let cols := cols ++ [t.value]
      let s ← skipWSR fuel s
      let (t2, s) := next s
      match t2.typ with
      | TokenType.COMMA => colNameLoop fuel n cols s
      | TokenType.RPAREN => Res.ok (cols, s)
      | _ => Res.err "should , or )"
    else Res.err "should IDENT or BACKTICK_IDENT"

/-- `Parser.parseColumnIndexColName`: a parenthesized, non-empty,
comma-separated column-name list, returned for the caller's
`AddColumns`. -/
def parseColumnIndexColName (fuel : Nat) (s : PState) : Res (List String × PState) := do
  let s ← skipWSR fuel s
  let (t, s) := next s
  if t.typ ≠ TokenType.LPAREN then Res.err "should ("
  else colNameLoop fuel fuel [] s

/-- `Parser.parseReferenceOption`: RESTRICT, CASCADE, SET NULL or
NO ACTION. -/
def parseReferenceOption (fuel : Nat) (s : PState) : Res (ReferenceOption × PState) := do
  let s ← skipWSR fuel s
  let (t, s) := next s
  match t.typ with
  | TokenType.RESTRICT => Res.ok (ReferenceOption.restrict, s)
  | TokenType.CASCADE => Res.ok (ReferenceOption.cascade, s)
  | TokenType.SET => do
    let s ← skipWSR fuel s
    let (t, s) := next s
    if t.typ ≠ TokenType.NULL then Res.err "expected NULL"
    else Res.ok (ReferenceOption.setNull, s)
  | TokenType.NO => do
    let s ← skipWSR fuel s
    let (t, s) := next s
    if t.typ ≠ TokenType.ACTION then Res.err "expected ACTION"
    else Res.ok (ReferenceOption.noAction, s)
  | _ => Res.err "expected RESTRICT, CASCADE, SET or NO"

/-- The `OUTER` loop of `parseColumnReference` (`for i := 0; i < 2; i++`):
up to two ON clauses; `ON UPDATE` breaks out, `ON DELETE` continues. -/
def refOnLoop (fuel : Nat) : Nat → Reference → PState → Res (Reference × PState)
  | 0, r, s => Res.ok (r, s)
  | n + 1, r, s => do
    let s ← skipWSR fuel s
    let (t, s) := peek s
    if t.typ ≠ TokenType.ON then Res.ok (r, s)
    else do
      let s ← skipWSR fuel (advance s)
      let (t, s) := next s
      match t.typ with
      | TokenType.DELETE =>
        (match parseReferenceOption fuel s with
         | Res.ok (o, s) => refOnLoop fuel n { r with onDelete := some o } s
         | Res.err e => Res.err ("failed to parse ON DELETE: " ++ e)
         | Res.ign s => Res.ign s
         | Res.crash e => Res.crash e
         | Res.nofuel => Res.nofuel)
      | TokenType.UPDATE =>
        (match parseReferenceOption fuel s with
         | Res.ok (o, s) => Res.ok ({ r with onUpdate := some o }, s)
         | Res.err e => Res.err ("failed to parse ON UPDATE: " ++ e)
         | Res.ign s => Res.ign s
         | Res.crash e => Res.crash e
         | Res.nofuel => Res.nofuel)
      | _ => Res.err "expected DELETE or UPDATE"

/-- `Parser.parseColumnReference`: `REFERENCES table (cols)
[MATCH ...] [ON ...]`, attached to the index at the end. -/
def parseColumnReference (fuel : Nat) (index : Index) (s : PState) :
    Res (Index × PState) := do
  let s ← skipWSR fuel s
  let (t, s) := next s
  if t.typ ≠ TokenType.REFERENCES then Res.err "expected REFERENCES"
  else do
    let s ← skipWSR fuel s
    let (t, s) := next s
    match t.typ with
    | TokenType.BACKTICK_IDENT | TokenType.IDENT => do
      let r := { newReference with tableName := t.value }
      let (cols, s) ← parseColumnIndexColName fuel s
      let r := { r with columns := r.columns ++ cols }
      let s ← skipWSR fuel s
      let (t, s) := peek s
      let (r, s) ←
        if t.typ = TokenType.MATCH then do
          let s ← skipWSR fuel (advance s)
          let (t, s) := next s
          match t.typ with
          | TokenType.FULL => do
            let s ← skipWSR fuel s
            pure ({ r with matchOpt := some ReferenceMatch.full }, s)
          | TokenType.PARTIAL_KW => do
            let s ← skipWSR fuel s
            pure ({ r with matchOpt := some ReferenceMatch.part }, s)
          | TokenType.SIMPLE => do
            let s ← skipWSR fuel s
            pure ({ r with matchOpt := some ReferenceMatch.simple }, s)
          | _ => Res.err "should FULL, PARTIAL or SIMPLE"
        else pure (r, s)
      let (r, s) ← refOnLoop fuel 2 r s
      Res.ok ({ index with reference := some r }, s)
    | _ => Res.err "should IDENT or BACKTICK_IDENT"

/-- `Parser.parseColumnIndexPrimaryKey`. -/
def parseColumnIndexPrimaryKey (fuel : Nat) (index : Index) (s : PState) :
    Res (Index × PState) := do
  let s ← skipWSR fuel s
  let (t, s) := next s
  if t.typ ≠ TokenType.KEY then Res.err "should KEY"
  else do
    let (index, s) ← parseColumnIndexType fuel index s
    let (cols, s) ← parseColumnIndexColName fuel s
    Res.ok ({ index with columns := index.columns ++ cols }, s)

/-- `Parser.parseColumnIndexUniqueKey`. -/
def parseColumnIndexUniqueKey (fuel : Nat) (index : Index) (s : PState) :
    Res (Index × PState) := do
  let s ← skipWSR fuel s
  let (t, s) := peek s
  let s := if t.typ = TokenType.KEY ∨ t.typ = TokenType.INDEX then advance s else s
  let (index, s) ← parseColumnIndexName fuel index s
  let (index, s) ← parseColumnIndexType fuel index s
  let (cols, s) ← parseColumnIndexColName fuel s
  Res.ok ({ index with columns := index.columns ++ cols }, s)

/-- `Parser.parseColumnIndexKey` (KEY / INDEX entries). -/
def parseColumnIndexKey (fuel : Nat) (index : Index) (s : PState) :
    Res (Index × PState) := do
  let (index, s) ← parseColumnIndexName fuel index s
  let (index, s) ← parseColumnIndexType fuel index s
  let (cols, s) ← parseColumnIndexColName fuel s
  Res.ok ({ index with columns := index.columns ++ cols }, s)

/-- `Parser.parseColumnIndexFullTextKey` (also used for SPATIAL). -/
def parseColumnIndexFullTextKey (fuel : Nat) (index : Index) (s : PState) :
    Res (Index × PState) := do
  let (index, s) ← parseColumnIndexName fuel index s
  let (cols, s) ← parseColumnIndexColName fuel s
  Res.ok ({ index with columns := index.columns ++ cols }, s)

/-- `Parser.parseColumnIndexForeignKey`: `KEY [name] (cols)
[REFERENCES ...]`. -/
def parseColumnIndexForeignKey (fuel : Nat) (index : Index) (s : PState) :
    Res (Index × PState) := do
  let s ← skipWSR fuel s
  let (t, s) := next s
  if t.typ ≠ TokenType.KEY then Res.err "should KEY"
  else do
    let (index, s) ← parseColumnIndexName fuel index s
    let (cols, s) ← parseColumnIndexColName fuel s
    let index := { index with columns := index.columns ++ cols }
    let s ← skipWSR fuel s
    let (t, s) := peek s
    if t.typ = TokenType.REFERENCES then parseColumnReference fuel index s
    else Res.ok (index, s)

/-- The option-scanning loop of `Parser.parseColumnOption`: one forward
pass with the permitted flag set `f` and the running rank `pos`. -/
def colOptLoop : Nat → TableColumn → Nat → Nat → PState → Res (TableColumn × PState)
  | 0, _, _, _, _ => Res.nofuel
  | fuel + 1, col, f, pos, s =>
    match skipWhiteSpaces (fuel + 1) s with
    | none => Res.nofuel
    | some s =>
      let (t, s) := next s
      match t.typ with
      | TokenType.LPAREN =>
        (match coloptCheck f pos coloptSize with
         | (true, pos1) => do
           let s ← skipWSR fuel s
           let (t, s) := next s
           if t.typ ≠ TokenType.NUMBER then Res.err "expected NUMBER (column size)"
           else do
             let tlen := t.value
             let s ← skipWSR fuel s
             let (t, s) := next s
             if t.typ ≠ TokenType.RPAREN then Res.err "expected RPAREN (column size)"
             else colOptLoop fuel { col with length := some (newLength tlen) } f pos1 s
         | (false, _) =>
           match coloptCheck f pos coloptDecimalSize with
           | (true, pos1) => do
             let (strs, s) ← parseIdents fuel
               [TokenType.NUMBER, TokenType.COMMA, TokenType.NUMBER, TokenType.RPAREN] s
             let l := { newLength (strs.getD 0 "") with decimal := some (strs.getD 2 "") }
             colOptLoop fuel { col with length := some l } f pos1 s
           | (false, _) =>
             match coloptCheck f pos coloptDecimalOptionalSize with
             | (true, pos1) => do
               let s ← skipWSR fuel s
               let (t, s) := next s
               if t.typ ≠ TokenType.NUMBER then Res.err "expected NUMBER (decimal size M)"
               else do
                 let tlen := t.value
                 let s ← skipWSR fuel s
                 let (t, s) := next s
                 if t.typ = TokenType.RPAREN then
                   colOptLoop fuel { col with length := some (newLength tlen) } f pos1 s
                 else if t.typ ≠ TokenType.COMMA then
                   Res.err "expected COMMA (decimal size)"
                 else do
                   let s ← skipWSR fuel s
                   let (t, s) := next s
                   if t.typ ≠ TokenType.NUMBER then
                     Res.err "expected NUMBER (decimal size D)"
                   else do
                     let tscale := t.value
                     let s ← skipWSR fuel s
                     let (t, s) := next s
                     if t.typ ≠ TokenType.RPAREN then
                       Res.err "expected RPARENT (decimal size)"
                     else
                       let l := { newLength tlen with decimal := some tscale }
                       colOptLoop fuel { col with length := some l } f pos1 s
             | (false, _) =>
               Res.err "cant apply coloptSize, coloptDecimalSize, coloptDecimalOptionalSize")
      | TokenType.UNSIGNED =>
        (match coloptCheck f pos coloptUnsigned with
         | (false, _) => Res.err "cant apply UNSIGNED"
         | (true, pos1) => colOptLoop fuel { col with unsigned := true } f pos1 s)
      | TokenType.ZEROFILL =>
        (match coloptCheck f pos coloptZerofill with
         | (false, _) => Res.err "cant apply ZEROFILL"
         | (true, pos1) => colOptLoop fuel { col with zeroFill := true } f pos1 s)
      | TokenType.BINARY =>
        (match coloptCheck f pos coloptBinary with
         | (false, _) => Res.err "cant apply BINARY"
         | (true, pos1) => colOptLoop fuel { col with binary := true } f pos1 s)
      | TokenType.NOT =>
        (match coloptCheck f pos coloptNull with
         | (false, _) => Res.err "cant apply NOT NULL"
         | (true, pos1) => do
           let s ← skipWSR fuel s
           let (t, s) := next s
           match t.typ with
           | TokenType.NULL =>
             colOptLoop fuel { col with nullState := NullState.notNull } f pos1 s
           | _ => Res.err "should NULL")
      | TokenType.NULL =>
        (match coloptCheck f pos coloptNull with
         | (false, _) => Res.err "cant apply NULL"
         | (true, pos1) =>
           colOptLoop fuel { col with nullState := NullState.null } f pos1 s)
      | TokenType.DEFAULT =>
        (match coloptCheck f pos coloptDefault with
         | (false, _) => Res.err "cant apply DEFAULT"
         | (true, pos1) => do
           let s ← skipWSR fuel s
           let (t, s) := next s
           match t.typ with
           | TokenType.IDENT | TokenType.SINGLE_QUOTE_IDENT | TokenType.DOUBLE_QUOTE_IDENT
           | TokenType.NUMBER | TokenType.CURRENT_TIMESTAMP | TokenType.NULL =>
             colOptLoop fuel { col with defaultVal := some t.value } f pos1 s
           | _ =>
             Res.err "should IDENT, SINGLE_QUOTE_IDENT, DOUBLE_QUOTE_IDENT, NUMBER, CURRENT_TIMESTAMP, NULL")
      | TokenType.AUTO_INCREMENT =>
        (match coloptCheck f pos coloptAutoIncrement with
         | (false, _) => Res.err "cant apply AUTO_INCREMENT"
         | (true, pos1) => colOptLoop fuel { col with autoIncrement := true } f pos1 s)
      | TokenType.UNIQUE =>
        (match coloptCheck f pos coloptKey with
         | (false, _) => Res.err "cant apply UNIQUE KEY"
         | (true, pos1) => do
           let s ← skipWSR fuel s
           let (t, s) := next s
           if t.typ = TokenType.KEY then
             colOptLoop fuel { col with isUnique := true } f pos1 (advance s)
           else
             colOptLoop fuel col f pos1 s)
      | TokenType.KEY =>
        (match coloptCheck f pos coloptKey with
         | (false, _) => Res.err "cant apply KEY"
         | (true, pos1) => colOptLoop fuel { col with isKey := true } f pos1 s)
      | TokenType.PRIMARY =>
        (match coloptCheck f pos coloptKey with
         | (false, _) => Res.err "cant apply PRIMARY KEY"
         | (true, pos1) => do
           let s ← skipWSR fuel s
           let (t, s) := peek s
           if t.typ = TokenType.KEY then
             colOptLoop fuel { col with isPrimary := true } f pos1 (advance s)
           else
             colOptLoop fuel col f pos1 s)
      | TokenType.COMMENT =>
        (match coloptCheck f pos coloptComment with
         | (false, _) => Res.err "cant apply COMMENT"
         | (true, pos1) => do
           let s ← skipWSR fuel s
           let (t, s) := next s
           match t.typ with
           | TokenType.SINGLE_QUOTE_IDENT =>
             colOptLoop fuel { col with comment := some t.value } f pos1 s
           | _ => Res.err "should SINGLE_QUOTE_IDENT")
      | TokenType.COMMA => Res.ok (col, rewind s)
      | TokenType.RPAREN => Res.ok (col, rewind s)
      | _ => Res.err "unexpected column options"

/-- `Parser.parseColumnOption`: union the type's capability flags with
the universally allowed ranks, then scan with running rank 0. -/
def parseColumnOption (fuel : Nat) (col : TableColumn) (f : Nat) (s : PState) :
    Res (TableColumn × PState) :=
  colOptLoop fuel col
    (f ||| coloptNull ||| coloptDefault ||| coloptAutoIncrement ||| coloptKey ||| coloptComment)
    0 s

/-- `Parser.parseTableColumnSpec`: map the leading type keyword to a
`ColumnType` and its capability flags, then parse options. -/
def parseTableColumnSpec (fuel : Nat) (col : TableColumn) (s : PState) :
    Res (TableColumn × PState) := do
  let s ← skipWSR fuel s
  let (t, s) := next s
  let spec : Option (ColumnType × Nat) :=
    match t.typ with
    | TokenType.BIT => some (ColumnType.bit, coloptSize)
    | TokenType.TINYINT => some (ColumnType.tinyInt, coloptFlagDigit)
    | TokenType.SMALLINT => some (ColumnType.smallInt, coloptFlagDigit)
    | TokenType.MEDIUMINT => some (ColumnType.mediumInt, coloptFlagDigit)
    | TokenType.INT => some (ColumnType.int, coloptFlagDigit)
    | TokenType.INTEGER => some (ColumnType.integer, coloptFlagDigit)
    | TokenType.BIGINT => some (ColumnType.bigInt, coloptFlagDigit)
    | TokenType.REAL => some (ColumnType.real, coloptFlagDecimal)
    | TokenType.DOUBLE => some (ColumnType.double, coloptFlagDecimal)
    | TokenType.FLOAT => some (ColumnType.float, coloptFlagDecimal)
    | TokenType.DECIMAL => some (ColumnType.decimal, coloptFlagDecimalOptional)
    | TokenType.NUMERIC => some (ColumnType.numeric, coloptFlagDecimalOptional)
    | TokenType.DATE => some (ColumnType.date, coloptFlagNone)
    | TokenType.TIME => some (ColumnType.time, coloptFlagTime)
    | TokenType.TIMESTAMP => some (ColumnType.timestamp, coloptFlagTime)
    | TokenType.DATETIME => some (ColumnType.dateTime, coloptFlagTime)
    | TokenType.YEAR => some (ColumnType.year, coloptFlagNone)
    | TokenType.CHAR => some (ColumnType.char, coloptFlagChar)
    | TokenType.VARCHAR => some (ColumnType.varChar, coloptFlagChar)
    | TokenType.BINARY => some (ColumnType.binary, coloptFlagBinary)
    | TokenType.VARBINARY => some (ColumnType.varBinary, coloptFlagBinary)
    | TokenType.TINYBLOB => some (ColumnType.tinyBlob, coloptFlagNone)
    | TokenType.BLOB => some (ColumnType.blob, coloptFlagNone)
    | TokenType.MEDIUMBLOB => some (ColumnType.mediumBlob, coloptFlagNone)
    | TokenType.LONGBLOB => some (ColumnType.longBlob, coloptFlagNone)
    | TokenType.TINYTEXT => some (ColumnType.tinyText, coloptFlagChar)
    | TokenType.TEXT => some (ColumnType.text, coloptFlagChar)
    | TokenType.MEDIUMTEXT => some (ColumnType.mediumText, coloptFlagChar)
    | TokenType.LONGTEXT => some (ColumnType.longText, coloptFlagChar)
    | _ => none
  match spec with
  | none => Res.err "not supported type"
  | some (coltyp, colopt) =>
    parseColumnOption fuel { col with typ := coltyp } colopt s

/-- The `setOption` closure of `parseCreateTableOptions`: optional `=`,
then a value whose kind must be in `types`. -/
def setTableOption (fuel : Nat) (stmt : Table) (key : String) (types : List TokenType)
    (s : PState) : Res (Table × PState) := do
  let s ← skipWSR fuel s
  let (t, s) := peek s
  let s ← if t.typ = TokenType.EQUAL then skipWSR fuel (advance s) else Res.ok s
  let (t, s) := next s
  if types.contains t.typ then
    Res.ok ({ stmt with options := stmt.options ++ [⟨key, t.value⟩] }, s)
  else Res.err ("should value of accepted kind for " ++ key)

/-- `Parser.parseCreateTableOptions`: `KEYWORD [=] VALUE` pairs up to the
statement terminator (pushed back) or EOF (consumed). -/
def parseCreateTableOptions : Nat → Table → PState → Res (Table × PState)
  | 0, _, _ => Res.nofuel
  | fuel + 1, stmt, s =>
    match skipWhiteSpaces (fuel + 1) s with
    | none => Res.nofuel
    | some s =>
      let (t, s) := next s
      match t.typ with
      | TokenType.ENGINE => do
        let (stmt, s) ← setTableOption fuel stmt "ENGINE"
          [TokenType.IDENT, TokenType.BACKTICK_IDENT] s
        parseCreateTableOptions fuel stmt s
      | TokenType.AUTO_INCREMENT => do
        let (stmt, s) ← setTableOption fuel stmt "AUTO_INCREMENT" [TokenType.NUMBER] s
        parseCreateTableOptions fuel stmt s
      | TokenType.AVG_ROW_LENGTH => do
        let (stmt, s) ← setTableOption fuel stmt "AVG_ROW_LENGTH" [TokenType.NUMBER] s
        parseCreateTableOptions fuel stmt s
      | TokenType.DEFAULT => do
        let s ← skipWSR fuel s
        let (t, s) := next s
        match t.typ with
        | TokenType.CHARACTER => do
          let s ← skipWSR fuel s
          let (t, s) := next s
          if t.typ ≠ TokenType.SET then Res.err "expected SET"
          else do
            let (stmt, s) ← setTableOption fuel stmt "DEFAULT CHARACTER SET"
              [TokenType.IDENT, TokenType.BACKTICK_IDENT] s
            parseCreateTableOptions fuel stmt s
        | TokenType.COLLATE => do
          let (stmt, s) ← setTableOption fuel stmt "DEFAULT COLLATE"
            [TokenType.IDENT, TokenType.BACKTICK_IDENT] s
          parseCreateTableOptions fuel stmt s
        | _ => Res.err "expected CHARACTER or COLLATE"
      | TokenType.CHARACTER => do
        let s ← skipWSR fuel s
        let (t, s) := next s
        if t.typ ≠ TokenType.SET then Res.err "expected SET"
        else do
          let (stmt, s) ← setTableOption fuel stmt "DEFAULT CHARACTER SET"
            [TokenType.IDENT, TokenType.BACKTICK_IDENT] s
          parseCreateTableOptions fuel stmt s
      | TokenType.COLLATE => do
        let (stmt, s) ← setTableOption fuel stmt "DEFAULT COLLATE"
          [TokenType.IDENT, TokenType.BACKTICK_IDENT] s
        parseCreateTableOptions fuel stmt s
      | TokenType.CHECKSUM => do
        let (stmt, s) ← setTableOption fuel stmt "CHECKSUM" [TokenType.NUMBER] s
        parseCreateTableOptions fuel stmt s
      | TokenType.COMMENT => do
        let (stmt, s) ← setTableOption fuel stmt "COMMENT"
          [TokenType.SINGLE_QUOTE_IDENT, TokenType.DOUBLE_QUOTE_IDENT] s
        parseCreateTableOptions fuel stmt s
      | TokenType.CONNECTION => do
        let (stmt, s) ← setTableOption fuel stmt "CONNECTION"
          [TokenType.SINGLE_QUOTE_IDENT, TokenType.DOUBLE_QUOTE_IDENT] s
        parseCreateTableOptions fuel stmt s
      | TokenType.DATA => do
        let s ← skipWSR fuel s
        let (t, s) := next s
        if t.typ ≠ TokenType.DIRECTORY then Res.err "should DIRECTORY"
        else do
          let (stmt, s) ← setTableOption fuel stmt "DATA DIRECTORY"
            [TokenType.SINGLE_QUOTE_IDENT, TokenType.DOUBLE_QUOTE_IDENT] s
          parseCreateTableOptions fuel stmt s
      | TokenType.DELAY_KEY_WRITE => do
        let (stmt, s) ← setTableOption fuel stmt "DELAY_KEY_WRITE" [TokenType.NUMBER] s
        parseCreateTableOptions fuel stmt s
      | TokenType.INDEX => do
        let s ← skipWSR fuel s
        let (t, s) := next s
        if t.typ ≠ TokenType.DIRECTORY then Res.err "should DIRECTORY"
        else do
          let (stmt, s) ← setTableOption fuel stmt "INDEX DIRECTORY"
            [TokenType.SINGLE_QUOTE_IDENT, TokenType.DOUBLE_QUOTE_IDENT] s
          parseCreateTableOptions fuel stmt s
      | TokenType.INSERT_METHOD => do
        let (stmt, s) ← setTableOption fuel stmt "INSERT_METHOD" [TokenType.IDENT] s
        parseCreateTableOptions fuel stmt s
      | TokenType.KEY_BLOCK_SIZE => do
        let (stmt, s) ← setTableOption fuel stmt "KEY_BLOCK_SIZE" [TokenType.NUMBER] s
        parseCreateTableOptions fuel stmt s
      | TokenType.MAX_ROWS => do
        let (stmt, s) ← setTableOption fuel stmt "MAX_ROWS" [TokenType.NUMBER] s
        parseCreateTableOptions fuel stmt s
      | TokenType.MIN_ROWS => do
        let (stmt, s) ← setTableOption fuel stmt "MIN_ROWS" [TokenType.NUMBER] s
        parseCreateTableOptions fuel stmt s
      | TokenType.PACK_KEYS => do
        let (stmt, s) ← setTableOption fuel stmt "PACK_KEYS"
          [TokenType.NUMBER, TokenType.IDENT] s
        parseCreateTableOptions fuel stmt s
      | TokenType.PASSWORD => do
        let (stmt, s) ← setTableOption fuel stmt "PASSWORD"
          [TokenType.SINGLE_QUOTE_IDENT, TokenType.DOUBLE_QUOTE_IDENT] s
        parseCreateTableOptions fuel stmt s
      | TokenType.ROW_FORMAT => do
        let (stmt, s) ← setTableOption fuel stmt "ROW_FORMAT"
          [TokenType.DEFAULT, TokenType.DYNAMIC, TokenType.FIXED, TokenType.COMPRESSED,
           TokenType.REDUNDANT, TokenType.COMPACT] s
        parseCreateTableOptions fuel stmt s
      | TokenType.STATS_AUTO_RECALC => do
        let (stmt, s) ← setTableOption fuel stmt "STATS_AUTO_RECALC"
          [TokenType.NUMBER, TokenType.DEFAULT] s
        parseCreateTableOptions fuel stmt s
      | TokenType.STATS_PERSISTENT => do
        let (stmt, s) ← setTableOption fuel stmt "STATS_PERSISTENT"
          [TokenType.NUMBER, TokenType.DEFAULT] s
        parseCreateTableOptions fuel stmt s
      | TokenType.STATS_SAMPLE_PAGES => do
        let (stmt, s) ← setTableOption fuel stmt "STATS_SAMPLE_PAGES" [TokenType.NUMBER] s
        parseCreateTableOptions fuel stmt s
      | TokenType.TABLESPACE => Res.err "not support TABLESPACE"
      | TokenType.UNION => Res.err "not support UNION"
      | TokenType.EOF => Res.ok (stmt, s)
      | TokenType.SEMICOLON => Res.ok (stmt, rewind s)
      | _ => Res.err "unexpected table options"

/-- The polymorphic `targetStmt` slot of `parseCreateTableFields`. -/
inductive FieldDef where
  | idx : Index → FieldDef
  | col : TableColumn → FieldDef
  deriving DecidableEq, Repr

/-- The `appendStmt` closure: commit the pending definition to the table. -/
def appendField (stmt : Table) : FieldDef → Table
  | FieldDef.idx i => { stmt with indexes := stmt.indexes ++ [i] }
  | FieldDef.col c => { stmt with columns := stmt.columns ++ [c] }

/-- `Parser.parseCreateTableFields`: the comma-separated column / index /
constraint list, then table options and the statement terminator. -/
def parseCreateTableFields : Nat → Table → Option FieldDef → PState → Res (Table × PState)
  | 0, _, _, _ => Res.nofuel
  | fuel + 1, stmt, target, s =>
    match skipWhiteSpaces (fuel + 1) s with
    | none => Res.nofuel
    | some s =>
      let (t, s) := next s
      match t.typ with
      | TokenType.RPAREN =>
        (match target with
         | none => Res.crash "unexpected targetStmt"
         | some fd => do
           let stmt := appendField stmt fd
           let (stmt, s) ← parseCreateTableOptions fuel stmt s
           let (b, s) ← eolR fuel s
           if b then Res.ok (stmt, s) else Res.err "should EOL")
      | TokenType.COMMA =>
        (match target with
         | none => Res.err "unexpected COMMA"
         | some fd => parseCreateTableFields fuel (appendField stmt fd) none s)
      | TokenType.CONSTRAINT =>
        (match target with
         | some _ => Res.err "previous column or index definition not terminated"
         | none => do
           let s ← skipWSR fuel s
           let (t2, s) := peek s
           let (sym, s) ←
             if t2.typ = TokenType.IDENT ∨ t2.typ = TokenType.BACKTICK_IDENT then do
               let s ← skipWSR fuel (advance s)
               pure (some t2.value, s)
             else pure ((none : Option String), s)
           let (t3, s) := next s
           let (index, s) ←
             match t3.typ with
             | TokenType.PRIMARY =>
               parseColumnIndexPrimaryKey fuel (newIndex IndexKind.primaryKey) s
             | TokenType.UNIQUE =>
               parseColumnIndexUniqueKey fuel (newIndex IndexKind.unique) s
             | TokenType.FOREIGN =>
               parseColumnIndexForeignKey fuel (newIndex IndexKind.foreignKey) s
             | _ => Res.err "not supported"
           let index :=
             match sym with
             | some v => if v.length > 0 then { index with symbol := some v } else index
             | none => index
           parseCreateTableFields fuel stmt (some (FieldDef.idx index)) s)
      | TokenType.PRIMARY =>
        (match target with
         | some _ => Res.err "previous column or index definition not terminated"
         | none => do
           let (index, s) ← parseColumnIndexPrimaryKey fuel (newIndex IndexKind.primaryKey) s
           parseCreateTableFields fuel stmt (some (FieldDef.idx index)) s)
      | TokenType.UNIQUE =>
        (match target with
         | some _ => Res.err "previous column or index definition not terminated"
         | none => do
           let (index, s) ← parseColumnIndexUniqueKey fuel (newIndex IndexKind.unique) s
           parseCreateTableFields fuel stmt (some (FieldDef.idx index)) s)
      | TokenType.INDEX =>
        (match target with
         | some _ => Res.err "previous column or index definition not terminated"
         | none => do
           let (index, s) ← parseColumnIndexKey fuel (newIndex IndexKind.normal) s
           parseCreateTableFields fuel stmt (some (FieldDef.idx index)) s)
      | TokenType.KEY =>
        (match target with
         | some _ => Res.err "previous column or index definition not terminated"
         | none => do
           let (index, s) ← parseColumnIndexKey fuel (newIndex IndexKind.normal) s
           parseCreateTableFields fuel stmt (some (FieldDef.idx index)) s)
      | TokenType.FULLTEXT =>
        (match target with
         | some _ => Res.err "previous column or index definition not terminated"
         | none => do
           let (index, s) ← parseColumnIndexFullTextKey fuel (newIndex IndexKind.fullText) s
           parseCreateTableFields fuel stmt (some (FieldDef.idx index)) s)
      | TokenType.SPARTIAL_KW =>
        (match target with
         | some _ => Res.err "previous column or index definition not terminated"
         | none => do
           let (index, s) ← parseColumnIndexFullTextKey fuel (newIndex IndexKind.spatial) s
           parseCreateTableFields fuel stmt (some (FieldDef.idx index)) s)
      | TokenType.FOREIGN =>
        (match target with
         | some _ => Res.err "previous column or index definition not terminated"
         | none => do
           let (index, s) ← parseColumnIndexForeignKey fuel (newIndex IndexKind.foreignKey) s
           parseCreateTableFields fuel stmt (some (FieldDef.idx index)) s)
      | TokenType.CHECK => Res.err "not support CHECK"
      | TokenType.IDENT =>
        (match target with
         | some _ => Res.err "previous column or index definition not terminated"
         | none => do
           let (col, s) ← parseTableColumnSpec fuel (newTableColumn t.value) s
           parseCreateTableFields fuel stmt (some (FieldDef.col col)) s)
      | TokenType.BACKTICK_IDENT =>
        (match target with
         | some _ => Res.err "previous column or index definition not terminated"
         | none => do
           let (col, s) ← parseTableColumnSpec fuel (newTableColumn t.value) s
           parseCreateTableFields fuel stmt (some (FieldDef.col col)) s)
      | _ => Res.err "unexpected create table fields"

/-- `Parser.parseCreateTable`: `TABLE [TEMPORARY] name [IF NOT EXISTS] (
fields ... ) options terminator`. -/
def parseCreateTable (fuel : Nat) (s : PState) : Res (Table × PState) := do
  let (t, s) := next s
  if t.typ ≠ TokenType.TABLE then Res.err "expected TABLE"
  else do
    let s ← skipWSR fuel s
    let (t, s) := peek s
    let (temporary, s) ←
      if t.typ = TokenType.TEMPORARY then do
        let s ← skipWSR fuel (advance s)
        pure (true, s)
      else pure (false, s)
    let (t, s) := next s
    match t.typ with
    | TokenType.IDENT | TokenType.BACKTICK_IDENT => do
      let table := { newTable t.value with temporary := temporary }
      let s ← skipWSR fuel s
      let (t2, s) := peek s
      let (table, s) ←
        if t2.typ = TokenType.IF then
          match parseIdents fuel [TokenType.NOT, TokenType.EXISTS] (advance s) with
          | Res.ok (_, s) => do
            let s ← skipWSR fuel s
            pure ({ table with ifNotExists := true }, s)
          | Res.nofuel => Res.nofuel
          | _ => Res.err "should NOT EXISTS"
        else pure (table, s)
      let (t3, s) := next s
      if t3.typ ≠ TokenType.LPAREN then Res.err "expected RPAREN"
      else parseCreateTableFields fuel table none s
    | _ => Res.err "expected IDENT or BACKTICK_IDENT"

/-- `Parser.parseCreateDatabase`: `DATABASE [IF NOT EXISTS] name
[terminator]` (the `eol` result is deliberately ignored). -/
def parseCreateDatabase (fuel : Nat) (s : PState) : Res (Database × PState) := do
  let (t, s) := next s
  if t.typ ≠ TokenType.DATABASE then Res.err "expected DATABASE"
  else do
    let s ← skipWSR fuel s
    let (t, s) := peek s
    let (notexists, s) ←
      if t.typ = TokenType.IF then do
        let (_, s) ← parseIdents fuel [TokenType.NOT, TokenType.EXISTS] (advance s)
        pure (true, s)
      else pure (false, s)
    let s ← skipWSR fuel s
    let (t, s) := next s
    match t.typ with
    | TokenType.IDENT | TokenType.BACKTICK_IDENT => do
      let database : Database := ⟨t.value, notexists⟩
      let (_, s) ← eolR fuel s
      Res.ok (database, s)
    | _ => Res.err "expected IDENT, BACKTICK_IDENT or IF"

/-- `Parser.parseCreate`: dispatch on DATABASE / TABLE after `CREATE`.
A successful CREATE DATABASE is returned as the ignorable class (the
parsed `Database` node is discarded). -/
def parseCreate (fuel : Nat) (s : PState) : Res (Stmt × PState) := do
  let (t, s) := next s
  if t.typ ≠ TokenType.CREATE then Res.err "expected CREATE"
  else do
    let s ← skipWSR fuel s
    let (t, s) := peek s
    match t.typ with
    | TokenType.DATABASE =>
      (match parseCreateDatabase fuel s with
       | Res.ok (_, s) => Res.ign s
       | Res.err e => Res.err e
       | Res.ign s => Res.ign s
       | Res.crash e => Res.crash e
       | Res.nofuel => Res.nofuel)
    | TokenType.TABLE => do
      let (tbl, s) ← parseCreateTable fuel s
      Res.ok (Stmt.table tbl, s)
    | _ => Res.err "expected DATABASE or TABLE"

/-- The `S1` skip loop for DROP / SET / USE statements: repeat `eol`
until it reports a terminator.  (`eol` does not consume non-terminator
tokens and the loop body contains nothing else, so the Go loop spins
forever on any non-terminator token; `none` models that.) -/
def skipStmtLoop : Nat → PState → Option PState
  | 0, _ => none
  | fuel + 1, s =>
    match eol (fuel + 1) s with
    | none => none
    | some (true, s) => some s
    | some (false, s) => skipStmtLoop fuel s

/-- The top-level statement loop of `Parser.Parse`. -/
def parseLoop : Nat → List Stmt → PState → Res (List Stmt)
  | 0, _, _ => Res.nofuel
  | fuel + 1, stmts, s =>
    match skipWhiteSpaces (fuel + 1) s with
    | none => Res.nofuel
    | some s =>
      let (t, s) := peek s
      match t.typ with
      | TokenType.CREATE =>
        (match parseCreate fuel s with
         | Res.ok (stmt, s) => parseLoop fuel (stmts ++ [stmt]) s
         | Res.ign s => parseLoop fuel stmts s
         | Res.err e => Res.err e
         | Res.crash e => Res.crash e
         | Res.nofuel => Res.nofuel)
      | TokenType.COMMENT_IDENT => parseLoop fuel stmts (advance s)
      | TokenType.DROP | TokenType.SET | TokenType.USE =>
        (match skipStmtLoop (fuel + 1) s with
         | none => Res.nofuel
         | some s => parseLoop fuel stmts s)
      | TokenType.EOF => Res.ok stmts
      | _ => Res.err "expected CREATE, COMMENT_IDENT or EOF"

/-- `Parser.Parse`, at the token-stream interface (the lexer is the
out-of-scope collaborator that would produce `tokens`).  The fuel is an
ample budget; `Res.nofuel` results are genuine non-termination of the
embedded loops, never a shortage on terminating inputs. -/
def Parse (tokens : List Token) : Res (List Stmt) :=
  parseLoop (tokens.length * 8 + 64) [] (newParseCtx tokens)

/-! ### Concrete token streams and expected AST values -/

/-- Shorthand token constructor. -/
def tok (ty : TokenType) (v : String) : Token := ⟨ty, v⟩

/-- A whitespace token. -/
def wsTok : Token := ⟨TokenType.SPACE, " "⟩

/-- Token stream of `CREATE TABLE t ( <fields> ) <opts> ;`. -/
def ctTokens (fields opts : List Token) : List Token :=
  [tok TokenType.CREATE "CREATE", wsTok, tok TokenType.TABLE "TABLE", wsTok,
   tok TokenType.IDENT "t", wsTok, tok TokenType.LPAREN "("] ++ fields ++
  [tok TokenType.RPAREN ")"] ++ opts ++ [tok TokenType.SEMICOLON ";", tok TokenType.EOF ""]

/-- Tokens of the field `a INT`. -/
def aIntTokens : List Token :=
  [tok TokenType.IDENT "a", wsTok, tok TokenType.INT "INT"]

/-- Expected column for `a INT` with no options. -/
def colA : TableColumn := { newTableColumn "a" with typ := ColumnType.int }

/-- Token stream of `CREATE DATABASE [IF NOT EXISTS] <name> ;` with the
name given as an `IDENT` or `BACKTICK_IDENT` token.  Whitespace tokens
are omitted: `skipWhiteSpaces` discards them uniformly before every
dispatch, so they never affect the parse (the spaced spelling is checked
separately on a concrete instance). -/
def createDbTokens (ntyp : TokenType) (v : String) (ine : Bool) : List Token :=
  [tok TokenType.CREATE "CREATE", tok TokenType.DATABASE "DATABASE"] ++
  (if ine then
    [tok TokenType.IF "IF", tok TokenType.NOT "NOT", tok TokenType.EXISTS "EXISTS"]
   else []) ++
  [tok ntyp v, tok TokenType.SEMICOLON ";", tok TokenType.EOF ""]

/-- `CREATE DATABASE foo;` with explicit whitespace tokens. -/
def c2SpacedTokens : List Token :=
  [tok TokenType.CREATE "CREATE", wsTok, tok TokenType.DATABASE "DATABASE", wsTok,
   tok TokenType.IDENT "foo", tok TokenType.SEMICOLON ";", tok TokenType.EOF ""]

/-- `CREATE DATABASE foo; CREATE TABLE t (a INT);` — a discarded
database statement followed by an emitted table statement. -/
def c2MixedTokens : List Token :=
  (createDbTokens TokenType.IDENT "foo" false).dropLast ++ [wsTok] ++
  ctTokens aIntTokens []

/-- `DROP ;` (any DROP/SET/USE statement drives the same skip loop). -/
def c1Tokens : List Token :=
  [tok TokenType.DROP "DROP", tok TokenType.SEMICOLON ";", tok TokenType.EOF ""]

/-- The context state reached by the top-level loop on `c1Tokens` when it
enters the DROP skip loop: the DROP token is cached at slot 0 and the
cursor points at it. -/
def c1Stuck : PState :=
  ⟨false, [tok TokenType.SEMICOLON ";", tok TokenType.EOF ""], 0,
   tok TokenType.DROP "DROP", eofToken, eofToken⟩

/-- `CREATE TABLE t (a INT DEFAULT 1 NOT NULL);` — DEFAULT precedes
NOT NULL, violating rank order. -/
def c3Tokens : List Token :=
  ctTokens (aIntTokens ++
    [wsTok, tok TokenType.DEFAULT "DEFAULT", wsTok, tok TokenType.NUMBER "1",
     wsTok, tok TokenType.NOT "NOT", wsTok, tok TokenType.NULL "NULL"]) []

/-- Tokens of `FOREIGN KEY (a) REFERENCES other(id)` followed by `extra`. -/
def fkRefTokens (extra : List Token) : List Token :=
  aIntTokens ++ [tok TokenType.COMMA ",", wsTok,
   tok TokenType.FOREIGN "FOREIGN", wsTok, tok TokenType.KEY "KEY", wsTok,
   tok TokenType.LPAREN "(", tok TokenType.IDENT "a", tok TokenType.RPAREN ")", wsTok,
   tok TokenType.REFERENCES "REFERENCES", wsTok, tok TokenType.IDENT "other",
   tok TokenType.LPAREN "(", tok TokenType.IDENT "id", tok TokenType.RPAREN ")"] ++ extra

/-- `CREATE TABLE t (a INT, FOREIGN KEY (a) REFERENCES other(id)
ON DELETE CASCADE ON UPDATE RESTRICT);` -/
def c4Tokens : List Token :=
  ctTokens (fkRefTokens
    [wsTok, tok TokenType.ON "ON", wsTok, tok TokenType.DELETE "DELETE", wsTok,
     tok TokenType.CASCADE "CASCADE", wsTok, tok TokenType.ON "ON", wsTok,
     tok TokenType.UPDATE "UPDATE", wsTok, tok TokenType.RESTRICT "RESTRICT"]) []

/-- Same statement with `MATCH SIMPLE` and `ON UPDATE NO ACTION`. -/
def c4MatchTokens : List Token :=
  ctTokens (fkRefTokens
    [wsTok, tok TokenType.MATCH "MATCH", wsTok, tok TokenType.SIMPLE "SIMPLE", wsTok,
     tok TokenType.ON "ON", wsTok, tok TokenType.UPDATE "UPDATE", wsTok,
     tok TokenType.NO "NO", wsTok, tok TokenType.ACTION "ACTION"]) []

/-- Ill-ordered variant: `ON UPDATE RESTRICT ON DELETE CASCADE`. -/
def c4BadTokens : List Token :=
  ctTokens (fkRefTokens
    [wsTok, tok TokenType.ON "ON", wsTok, tok TokenType.UPDATE "UPDATE", wsTok,
     tok TokenType.RESTRICT "RESTRICT", wsTok, tok TokenType.ON "ON", wsTok,
     tok TokenType.DELETE "DELETE", wsTok, tok TokenType.CASCADE "CASCADE"]) []

/-- `ON DELETE CASCADE ON DELETE RESTRICT` (duplicate ON DELETE). -/
def c10Tokens : List Token :=
  ctTokens (fkRefTokens
    [wsTok, tok TokenType.ON "ON", wsTok, tok TokenType.DELETE "DELETE", wsTok,
     tok TokenType.CASCADE "CASCADE", wsTok, tok TokenType.ON "ON", wsTok,
     tok TokenType.DELETE "DELETE", wsTok, tok TokenType.RESTRICT "RESTRICT"]) []

/-- Expected foreign-key index with both ON clauses. -/
def c4Index : Index :=
  { newIndex IndexKind.foreignKey with
    columns := ["a"],
    reference := some { newReference with
      tableName := "other", columns := ["id"],
      onDelete := some ReferenceOption.cascade,
      onUpdate := some ReferenceOption.restrict } }

/-- Expected foreign-key index for the MATCH SIMPLE variant. -/
def c4MatchIndex : Index :=
  { newIndex IndexKind.foreignKey with
    columns := ["a"],
    reference := some { newReference with
      tableName := "other", columns := ["id"],
      matchOpt := some ReferenceMatch.simple,
      onUpdate := some ReferenceOption.noAction } }

/-- Expected foreign-key index for the duplicate ON DELETE variant:
the second action overwrites the first, on_update stays unset. -/
def c10Index : Index :=
  { newIndex IndexKind.foreignKey with
    columns := ["a"],
    reference := some { newReference with
      tableName := "other", columns := ["id"],
      onDelete := some ReferenceOption.restrict } }

/-- `CREATE TABLE t (a INT <opt tokens>);` for column-option probes. -/
def colOptTokens (opts : List Token) : List Token :=
  ctTokens (aIntTokens ++ [wsTok] ++ opts) []

/-- `CREATE TABLE t (a INT, CHECK (a));` -/
def c8CheckTokens : List Token :=
  ctTokens (aIntTokens ++
    [tok TokenType.COMMA ",", wsTok, tok TokenType.CHECK "CHECK", wsTok,
     tok TokenType.LPAREN "(", tok TokenType.IDENT "a", tok TokenType.RPAREN ")"]) []

/-- `CREATE TABLE t (a INT) TABLESPACE x;` -/
def c8TablespaceTokens : List Token :=
  ctTokens aIntTokens
    [wsTok, tok TokenType.TABLESPACE "TABLESPACE", wsTok, tok TokenType.IDENT "x"]

/-- `CREATE TABLE t (a INT) UNION x;` -/
def c8UnionTokens : List Token :=
  ctTokens aIntTokens
    [wsTok, tok TokenType.UNION "UNION", wsTok, tok TokenType.IDENT "x"]

/-- A valid table statement followed by one whose field list hits CHECK:
`CREATE TABLE t (a INT); CREATE TABLE u (b INT, CHECK);` -/
def c8AbortTokens : List Token :=
  (ctTokens aIntTokens []).dropLast ++ [wsTok,
   tok TokenType.CREATE "CREATE", wsTok, tok TokenType.TABLE "TABLE", wsTok,
   tok TokenType.IDENT "u", wsTok, tok TokenType.LPAREN "(",
   tok TokenType.IDENT "b", wsTok, tok TokenType.INT "INT", tok TokenType.COMMA ",",
   wsTok, tok TokenType.CHECK "CHECK", tok TokenType.RPAREN ")",
   tok TokenType.SEMICOLON ";", tok TokenType.EOF ""]

/-- `CREATE TABLE t (a INT) <option tokens> ;`. -/
def tblOptTokens (opts : List Token) : List Token :=
  ctTokens aIntTokens ([wsTok] ++ opts)

/-- Bare `CHARACTER SET v`. -/
def c9BareCharset (v : String) : List Token :=
  tblOptTokens [tok TokenType.CHARACTER "CHARACTER", wsTok, tok TokenType.SET "SET",
    wsTok, tok TokenType.IDENT v]

/-- `DEFAULT CHARACTER SET v`. -/
def c9DefaultCharset (v : String) : List Token :=
  tblOptTokens [tok TokenType.DEFAULT "DEFAULT", wsTok,
    tok TokenType.CHARACTER "CHARACTER", wsTok, tok TokenType.SET "SET",
    wsTok, tok TokenType.IDENT v]

/-- Bare `COLLATE v`. -/
def c9BareCollate (v : String) : List Token :=
  tblOptTokens [tok TokenType.COLLATE "COLLATE", wsTok, tok TokenType.IDENT v]

/-- `DEFAULT COLLATE v`. -/
def c9DefaultCollate (v : String) : List Token :=
  tblOptTokens [tok TokenType.DEFAULT "DEFAULT", wsTok,
    tok TokenType.COLLATE "COLLATE", wsTok, tok TokenType.IDENT v]

/-- Expected table with the single option `(key, v)`. -/
def c9Table (key v : String) : Table :=
  { newTable "t" with columns := [colA], options := [⟨key, v⟩] }

/-- Option-level stream: bare `CHARACTER SET v ;`. -/
def c9OptBareCS (v : String) : List Token :=
  [tok TokenType.CHARACTER "CHARACTER", tok TokenType.SET "SET", tok TokenType.IDENT v,
   tok TokenType.SEMICOLON ";", tok TokenType.EOF ""]

/-- Option-level stream: `DEFAULT CHARACTER SET v ;`. -/
def c9OptDefCS (v : String) : List Token :=
  [tok TokenType.DEFAULT "DEFAULT", tok TokenType.CHARACTER "CHARACTER",
   tok TokenType.SET "SET", tok TokenType.IDENT v,
   tok TokenType.SEMICOLON ";", tok TokenType.EOF ""]

/-- Option-level stream: bare `COLLATE v ;`. -/
def c9OptBareCO (v : String) : List Token :=
  [tok TokenType.COLLATE "COLLATE", tok TokenType.IDENT v,
   tok TokenType.SEMICOLON ";", tok TokenType.EOF ""]

/-- Option-level stream: `DEFAULT COLLATE v ;`. -/
def c9OptDefCO (v : String) : List Token :=
  [tok TokenType.DEFAULT "DEFAULT", tok TokenType.COLLATE "COLLATE",
   tok TokenType.IDENT v, tok TokenType.SEMICOLON ";", tok TokenType.EOF ""]

/-- The context state after the table-option scan pushed the
terminator back: `;` cached at slot 0, cursor on it, EOF still in the
source. -/
def c9EndState : PState :=
  ⟨false, [tok TokenType.EOF ""], 0, tok TokenType.SEMICOLON ";", eofToken, eofToken⟩

/-- A fresh context over a single CREATE token (used to witness the
buffer laws). -/
def c6s : PState := newParseCtx [tok TokenType.CREATE "CREATE"]

/-- A context that has peeked (but not consumed) the last token of its
source: the source is exhausted while a non-EOF token is cached. -/
def c7s : PState := (peek (newParseCtx [tok TokenType.CREATE "CREATE"])).2

/-- A fresh context over an empty source. -/
def c7Empty : PState := newParseCtx []

/-! ### Claim theorems -/

/-- Helper for C1: on a DROP statement the skip-loop state is a fixpoint
— `eol` peeks the DROP token, consumes nothing, and reports false — so
the loop exhausts any fuel (the Go loop never terminates). -/
theorem c1_skipStmtLoop_none (n : Nat) : skipStmtLoop n c1Stuck = none := by
  induction n with
  | zero => rfl
  | succ k ih =>
    have he : eol (k + 1) c1Stuck = some (false, c1Stuck) := rfl
    simp only [skipStmtLoop, he]
    exact ih

/-- Helper for C1: the top-level loop on `DROP ;` never returns,
whatever the fuel. -/
theorem c1_parseLoop_nofuel (fuel : Nat) :
    parseLoop fuel [] (newParseCtx c1Tokens) = Res.nofuel := by
  cases fuel with
  | zero => rfl
  | succ k =>
    have h := c1_skipStmtLoop_none (k + 1)
    calc parseLoop (k + 1) [] (newParseCtx c1Tokens)
        = (match skipStmtLoop (k + 1) c1Stuck with
           | none => Res.nofuel
           | some s => parseLoop k [] s) := rfl
      _ = Res.nofuel := by rw [h]

/-- C1: contrary to the claim, a statement beginning with DROP (and
likewise SET / USE, which drive the identical skip loop) is never
skipped: `eol` does not consume non-terminator tokens and the skip
loop's body contains no advance, so the loop spins on the DROP token
itself and `Parse` never returns on `DROP ;` — it exhausts every fuel
instead of producing a result. -/
theorem c1_drop_skip_diverges :
    (∀ fuel, parseLoop fuel [] (newParseCtx c1Tokens) = Res.nofuel)
    ∧ Parse c1Tokens = Res.nofuel :=
  ⟨c1_parseLoop_nofuel, c1_parseLoop_nofuel _⟩

/-- Helper for C2: plain-name CREATE DATABASE yields no node. -/
theorem c2dbAux1 (v : String) :
    Parse (createDbTokens TokenType.IDENT v false) = Res.ok [] := rfl

/-- Helper for C2: IF NOT EXISTS variant yields no node. -/
theorem c2dbAux2 (v : String) :
    Parse (createDbTokens TokenType.IDENT v true) = Res.ok [] := rfl

/-- Helper for C2: backtick-quoted name variant yields no node. -/
theorem c2dbAux3 (v : String) :
    Parse (createDbTokens TokenType.BACKTICK_IDENT v false) = Res.ok [] := rfl

/-- Helper for C2: backtick-quoted IF NOT EXISTS variant yields no node. -/
theorem c2dbAux4 (v : String) :
    Parse (createDbTokens TokenType.BACKTICK_IDENT v true) = Res.ok [] := rfl

/-- Helper for C2: the CREATE sub-grammar returns the ignorable class on
a database statement, carrying the context just past the terminator. -/
theorem c2dbAux5 (v : String) :
    parseCreate 64 (newParseCtx (createDbTokens TokenType.IDENT v false))
      = Res.ign ⟨false, [tok TokenType.EOF ""], -1, tok TokenType.SEMICOLON ";",
          eofToken, eofToken⟩ := rfl

/-- C2: every syntactically valid CREATE DATABASE statement — bare or
backtick-quoted name, with or without IF NOT EXISTS — parses
successfully and contributes zero AST nodes: `Parse` returns the empty
statement list; the CREATE sub-grammar itself returns the ignorable
class (distinct by construction from both success-with-node and fatal
error), and the driver continues the loop, as the mixed input (database
statement followed by a table statement) shows by yielding exactly the
table node. -/
theorem c2_create_database_ignorable (v : String) :
    Parse (createDbTokens TokenType.IDENT v false) = Res.ok []
    ∧ Parse (createDbTokens TokenType.IDENT v true) = Res.ok []
    ∧ Parse (createDbTokens TokenType.BACKTICK_IDENT v false) = Res.ok []
    ∧ Parse (createDbTokens TokenType.BACKTICK_IDENT v true) = Res.ok []
    ∧ (∃ s', parseCreate 64 (newParseCtx (createDbTokens TokenType.IDENT v false))
        = Res.ign s')
    ∧ Parse c2SpacedTokens = Res.ok []
    ∧ Parse c2MixedTokens = Res.ok [Stmt.table { newTable "t" with columns := [colA] }] :=
  ⟨c2dbAux1 v, c2dbAux2 v, c2dbAux3 v, c2dbAux4 v, ⟨_, c2dbAux5 v⟩, by decide, by decide⟩

/-- C3: the option-acceptance check is exactly "rank permitted by the
flag set and at least the running rank" (equal ranks repeat freely, and
on success the running rank becomes the accepted rank);
`parseColumnOption` checks against the type's capability flags unioned
with the universally allowed ranks; and the out-of-rank-order input
`CREATE TABLE t (a INT DEFAULT 1 NOT NULL);` is a fatal
"cant apply" error. -/
theorem c3_colopt_rank_enforcement :
    (∀ f pos rank : Nat,
      coloptCheck f pos rank =
        if f ||| rank = f ∧ pos ≤ rank then (true, rank) else (false, pos))
    ∧ (∀ (fuel : Nat) (col : TableColumn) (f : Nat) (s : PState),
        parseColumnOption fuel col f s =
          colOptLoop fuel col
            (f ||| coloptNull ||| coloptDefault ||| coloptAutoIncrement |||
              coloptKey ||| coloptComment) 0 s)
    ∧ Parse c3Tokens = Res.err "cant apply NOT NULL" := by
  refine ⟨?_, fun _ _ _ _ => rfl, by decide⟩
  intro f pos rank
  by_cases h1 : pos > rank
  · have hn : ¬(f ||| rank = f ∧ pos ≤ rank) := fun h => absurd h.2 (by omega)
    simp [coloptCheck, h1, hn]
  · by_cases h2 : f ||| rank = f
    · have hc : f ||| rank = f ∧ pos ≤ rank := ⟨h2, by omega⟩
      simp [coloptCheck, h1, h2, hc]
    · have hn : ¬(f ||| rank = f ∧ pos ≤ rank) := fun h => h2 h.1
      simp [coloptCheck, h1, h2, hn]

/-- C4: the foreign-key REFERENCES clause parses the table name, a
non-empty column list, an optional MATCH mode and up to two ON clauses
where ON DELETE may precede ON UPDATE but not conversely: the claim's
example yields a ForeignKey index whose Reference is
(other, [id], Cascade, Restrict); the MATCH SIMPLE / NO ACTION variant
parses likewise; and `ON UPDATE ... ON DELETE ...` is a fatal error
because the clause scan stops after ON UPDATE. -/
theorem c4_foreign_key_reference :
    Parse c4Tokens
      = Res.ok [Stmt.table { newTable "t" with columns := [colA], indexes := [c4Index] }]
    ∧ Parse c4MatchTokens
      = Res.ok [Stmt.table { newTable "t" with columns := [colA], indexes := [c4MatchIndex] }]
    ∧ Parse c4BadTokens = Res.err "unexpected create table fields" := by
  refine ⟨by decide, by decide, by decide⟩

/-- C5: contrary to the claim, `UNIQUE` with the KEY keyword omitted
does not set is_unique and does not leave the following token for the
list parser — the UNIQUE branch consumes the next significant token
with `next()` and sets the flag only inside its KEY test — so
`CREATE TABLE t (a INT UNIQUE);` dies with "unexpected column options";
bare `PRIMARY` parses but leaves is_primary false (the expected column
here is `colA`, whose is_primary is false); only the spelled-out
`UNIQUE KEY` / `PRIMARY KEY` forms set their flags. -/
theorem c5_unique_primary_divergence :
    Parse (colOptTokens [tok TokenType.UNIQUE "UNIQUE"])
      = Res.err "unexpected column options"
    ∧ Parse (colOptTokens [tok TokenType.PRIMARY "PRIMARY"])
      = Res.ok [Stmt.table { newTable "t" with columns := [colA] }]
    ∧ Parse (colOptTokens [tok TokenType.UNIQUE "UNIQUE", wsTok, tok TokenType.KEY "KEY"])
      = Res.ok [Stmt.table
          { newTable "t" with columns := [{ colA with isUnique := true }] }]
    ∧ Parse (colOptTokens [tok TokenType.PRIMARY "PRIMARY", wsTok, tok TokenType.KEY "KEY"])
      = Res.ok [Stmt.table
          { newTable "t" with columns := [{ colA with isPrimary := true }] }] := by
  refine ⟨by decide, by decide, by decide, by decide⟩

/-- C8: CHECK in the field list and TABLESPACE / UNION among the table
options are fatal "not support" errors, and the first fatal error aborts
the whole parse with an error result carrying no statement list — in
particular a valid leading statement is discarded when a later statement
fails. -/
theorem c8_fatal_errors_abort :
    Parse c8CheckTokens = Res.err "not support CHECK"
    ∧ Parse c8TablespaceTokens = Res.err "not support TABLESPACE"
    ∧ Parse c8UnionTokens = Res.err "not support UNION"
    ∧ Parse c8AbortTokens = Res.err "not support CHECK" := by
  refine ⟨by decide, by decide, by decide, by decide⟩

/-- Helper for C9: bare `CHARACTER SET v` records
("DEFAULT CHARACTER SET", v), for every value and any accumulated
table. -/
theorem c9Aux1 (v : String) (tbl : Table) :
    parseCreateTableOptions 32 tbl (newParseCtx (c9OptBareCS v))
      = Res.ok ({ tbl with options := tbl.options ++ [⟨"DEFAULT CHARACTER SET", v⟩] },
          c9EndState) := rfl

/-- Helper for C9: `DEFAULT CHARACTER SET v` records the identical pair
and leaves the identical context. -/
theorem c9Aux2 (v : String) (tbl : Table) :
    parseCreateTableOptions 32 tbl (newParseCtx (c9OptDefCS v))
      = Res.ok ({ tbl with options := tbl.options ++ [⟨"DEFAULT CHARACTER SET", v⟩] },
          c9EndState) := rfl

/-- Helper for C9: bare `COLLATE v` records ("DEFAULT COLLATE", v). -/
theorem c9Aux3 (v : String) (tbl : Table) :
    parseCreateTableOptions 32 tbl (newParseCtx (c9OptBareCO v))
      = Res.ok ({ tbl with options := tbl.options ++ [⟨"DEFAULT COLLATE", v⟩] },
          c9EndState) := rfl

/-- Helper for C9: `DEFAULT COLLATE v` records the identical pair. -/
theorem c9Aux4 (v : String) (tbl : Table) :
    parseCreateTableOptions 32 tbl (newParseCtx (c9OptDefCO v))
      = Res.ok ({ tbl with options := tbl.options ++ [⟨"DEFAULT COLLATE", v⟩] },
          c9EndState) := rfl

/-- Helper for C9: whole-statement bare CHARACTER SET. -/
theorem c9Aux5 : Parse (c9BareCharset "utf8")
    = Res.ok [Stmt.table (c9Table "DEFAULT CHARACTER SET" "utf8")] := by decide

/-- Helper for C9: whole-statement DEFAULT CHARACTER SET. -/
theorem c9Aux6 : Parse (c9DefaultCharset "utf8")
    = Res.ok [Stmt.table (c9Table "DEFAULT CHARACTER SET" "utf8")] := by decide

/-- Helper for C9: whole-statement bare COLLATE. -/
theorem c9Aux7 : Parse (c9BareCollate "u")
    = Res.ok [Stmt.table (c9Table "DEFAULT COLLATE" "u")] := by decide

/-- Helper for C9: whole-statement DEFAULT COLLATE. -/
theorem c9Aux8 : Parse (c9DefaultCollate "u")
    = Res.ok [Stmt.table (c9Table "DEFAULT COLLATE" "u")] := by decide

/-- C9: a bare `CHARACTER SET v` table option parses to exactly the same
result as `DEFAULT CHARACTER SET v` — the option pair
("DEFAULT CHARACTER SET", v) — and a bare `COLLATE v` to the same result
as `DEFAULT COLLATE v` — the pair ("DEFAULT COLLATE", v) — for every
value v and whatever table was accumulated before the option scan; the
whole-statement spellings likewise parse to identical tables. -/
theorem c9_bare_charset_collate_default_key (v : String) (tbl : Table) :
    parseCreateTableOptions 32 tbl (newParseCtx (c9OptBareCS v))
      = parseCreateTableOptions 32 tbl (newParseCtx (c9OptDefCS v))
    ∧ parseCreateTableOptions 32 tbl (newParseCtx (c9OptBareCS v))
      = Res.ok ({ tbl with options := tbl.options ++ [⟨"DEFAULT CHARACTER SET", v⟩] },
          c9EndState)
    ∧ parseCreateTableOptions 32 tbl (newParseCtx (c9OptBareCO v))
      = parseCreateTableOptions 32 tbl (newParseCtx (c9OptDefCO v))
    ∧ parseCreateTableOptions 32 tbl (newParseCtx (c9OptBareCO v))
      = Res.ok ({ tbl with options := tbl.options ++ [⟨"DEFAULT COLLATE", v⟩] },
          c9EndState)
    ∧ Parse (c9BareCharset "utf8") = Parse (c9DefaultCharset "utf8")
    ∧ Parse (c9BareCharset "utf8")
      = Res.ok [Stmt.table (c9Table "DEFAULT CHARACTER SET" "utf8")]
    ∧ Parse (c9BareCollate "u") = Parse (c9DefaultCollate "u")
    ∧ Parse (c9BareCollate "u") = Res.ok [Stmt.table (c9Table "DEFAULT COLLATE" "u")] :=
  ⟨(c9Aux1 v tbl).trans (c9Aux2 v tbl).symm, c9Aux1 v tbl,
   (c9Aux3 v tbl).trans (c9Aux4 v tbl).symm, c9Aux3 v tbl,
   c9Aux5.trans c9Aux6.symm, c9Aux5, c9Aux7.trans c9Aux8.symm, c9Aux7⟩

/-- C10: a reference clause with `ON DELETE CASCADE ON DELETE RESTRICT`
parses successfully; the second action overwrites the first
(on_delete = Restrict) and on_update stays unset. -/
theorem c10_duplicate_on_delete :
    Parse c10Tokens
      = Res.ok [Stmt.table { newTable "t" with columns := [colA], indexes := [c10Index] }] := by
  decide

/-- The C6 counterexample trace: a fresh buffer over two tokens. -/
def c6r0 : PState := newParseCtx [tok TokenType.DROP "DROP", tok TokenType.SET "SET"]

/-- After one `next` (DROP fetched and consumed). -/
def c6r1 : PState := (next c6r0).2

/-- After a second `next` (SET fetched and consumed). -/
def c6r2 : PState := (next c6r1).2

/-- C6 counterexample: after two `next`s (which fetched DROP, then SET),
successive `rewind`s do not re-expose the previously fetched tokens: one
rewind re-exposes SET, but the second exposes the never-written slot 1
(every fetch happens with the cursor at -1 and writes slot 0, the second
fetch overwriting the first), so the peek after two rewinds yields the
nil stand-in, not the DROP token the claim promises. -/
theorem c6_rewind_history_counterexample :
    (next c6r0).1 = tok TokenType.DROP "DROP"
    ∧ (next c6r1).1 = tok TokenType.SET "SET"
    ∧ (peek (rewind c6r2)).1 = tok TokenType.SET "SET"
    ∧ (peek (rewind (rewind c6r2))).1 ≠ tok TokenType.DROP "DROP"
    ∧ (peek (rewind (rewind c6r2))).1 = eofToken := by
  refine ⟨by decide, by decide, by decide, by decide, by decide⟩

/-- C6 (amended): for a buffer whose cursor is in the valid range -1..2
and which is not at the exhausted fetch point, the peek/next/rewind laws
hold: peek is non-consuming and idempotent; next is peek followed by
advance, returning the peeked token; and a single rewind immediately
after a next makes the just-consumed token current again.  (The deeper
multi-rewind history re-exposure of the original claim is refuted by
the counterexample: only slot 0 is ever written.) -/
theorem c6_buffer_laws_amended (s : PState)
    (hlo : -1 ≤ s.peekCount) (hhi : s.peekCount ≤ 2)
    (hne : 0 ≤ s.peekCount ∨ (s.done = false ∧ s.source ≠ [])) :
    peek (peek s).2 = ((peek s).1, (peek s).2)
    ∧ next s = ((peek s).1, advance (peek s).2)
    ∧ peek (rewind (next s).2) = ((next s).1, rewind (next s).2) := by
  obtain ⟨d, src, pc, p0, p1, p2⟩ := s
  dsimp only at hlo hhi hne ⊢
  rcases (show pc = -1 ∨ pc = 0 ∨ pc = 1 ∨ pc = 2 by omega) with h | h | h | h <;> subst h
  · rcases hne with h0 | ⟨hd, hs⟩
    · exact absurd h0 (by decide)
    · subst hd
      cases src with
      | nil => exact absurd rfl hs
      | cons t rest => exact ⟨rfl, rfl, rfl⟩
  · exact ⟨rfl, rfl, rfl⟩
  · exact ⟨rfl, rfl, rfl⟩
  · exact ⟨rfl, rfl, rfl⟩

/-- Witness for the amended C6 laws at a concrete fresh buffer. -/
theorem c6_buffer_laws_amended_witness :
    ((-1 : Int) ≤ c6s.peekCount ∧ c6s.peekCount ≤ 2
      ∧ (0 ≤ c6s.peekCount ∨ (c6s.done = false ∧ c6s.source ≠ [])))
    ∧ (peek (peek c6s).2 = ((peek c6s).1, (peek c6s).2)
      ∧ next c6s = ((peek c6s).1, advance (peek c6s).2)
      ∧ peek (rewind (next c6s).2) = ((next c6s).1, rewind (next c6s).2)) :=
  ⟨⟨by decide, by decide, Or.inr (by decide)⟩,
   c6_buffer_laws_amended c6s (by decide) (by decide) (Or.inr (by decide))⟩

/-- C7 counterexample: `c7s` has peeked (not consumed) the last token of
its source, so the channel is drained (`source = []`); yet peek returns
the cached CREATE token, not the synthetic EOF token — and it still does
after the cancellation signal fires, because the done/closed checks sit
only on the fetch path taken when the cursor is below the cached
range. -/
theorem c7_exhaustion_counterexample :
    c7s.source = [] ∧ (peek c7s).1 = tok TokenType.CREATE "CREATE"
    ∧ (peek c7s).1 ≠ eofToken
    ∧ (cancel c7s).done = true
    ∧ (peek (cancel c7s)).1 = tok TokenType.CREATE "CREATE"
    ∧ (peek (cancel c7s)).1 ≠ eofToken := by
  refine ⟨by decide, by decide, by decide, by decide, by decide, by decide⟩

/-- C7 (amended): once the cursor is below the cached range
(`peekCount < 0`) and the cancellation signal has fired or the source is
exhausted, `peek` and `next` return the synthetic end-of-input token and
leave the context completely unchanged — hence every subsequent
peek/next returns EOF forever, idempotently. -/
theorem c7_exhaustion_amended (s : PState) (h1 : s.peekCount < 0)
    (h2 : s.done = true ∨ s.source = []) :
    peek s = (eofToken, s) ∧ next s = (eofToken, s) := by
  have hp : peek s = (eofToken, s) := by
    unfold peek
    rw [if_pos h1]
    rcases h2 with h | h
    · simp [h]
    · cases hd : s.done
      · simp [hd, h]
      · simp [hd]
  have ha : advance s = s := by
    unfold advance
    rw [if_neg (by omega)]
  exact ⟨hp, by simp [next, hp, ha]⟩

/-- Witness for the amended C7 exhaustion law at a fresh empty-source
context. -/
theorem c7_exhaustion_amended_witness :
    (c7Empty.peekCount < 0 ∧ (c7Empty.done = true ∨ c7Empty.source = []))
    ∧ (peek c7Empty = (eofToken, c7Empty) ∧ next c7Empty = (eofToken, c7Empty)) :=
  ⟨⟨by decide, Or.inr (by decide)⟩,
   c7_exhaustion_amended c7Empty (by decide) (Or.inr (by decide))⟩

end Schemalex
